import Mathlib

/-!
# Verification of the PatchOpsIII configuration-patching engine

Shallow embedding of the core file-manipulation routines of the repository:

* `src/backend/config.rs` — `update_config_values`, `apply_preset`,
  `toggle_stutter_reduction`, `check_essential_status` and the
  `capture_*` helpers;
* `src/backend/t7patch.rs` — `update_t7patch_conf`;
* `src/backend/dxvk.rs` — `preferred_asset_url`.

Filesystem state is modelled explicitly: a `GameDir` records whether
`players/config.ini` exists together with its lines, and the presence of
`d3dcompiler_46.dll` and its `.bak` sibling.  Operations return an
`Except String Unit` (mirroring `anyhow::Result<()>`) paired with the
resulting state; logging is outside the model, and `fs::rename` /
file writes are modelled as succeeding (only I/O failures of those calls
can make the originals fail on those paths).

Rust regexes are embedded by their concrete shapes: every pattern handed
to `update_config_values` is `^\s*KEY\s*=` with `KEY` a `regex::escape`d
literal, and every status-reader pattern is `KEY\s*=\s*"([^"]+)"` with a
literal `KEY`; both are implemented character-exactly below (`\s` is the
regex space class).  `i32`/`f32` parsing is modelled over `Int`/`Rat`:
the `f32` model keeps exact decimal values (no binary rounding) and
leaves out the `inf`/`nan` forms, which no claim exercises.
-/

set_option maxRecDepth 4000

/-- The regex character class `\s`: space, tab, newline, carriage return,
vertical tab and form feed. -/
def isRegexSpace (c : Char) : Bool :=
  c = ' ' || c = '\t' || c = '\n' || c = '\r' || c = '\x0b' || c = '\x0c'

/-- `listStartsWith pre cs` holds when `pre` is a prefix of `cs`. -/
def listStartsWith : List Char → List Char → Bool
  | [], _ => true
  | _ :: _, [] => false
  | p :: ps, c :: cs => p == c && listStartsWith ps cs

/-- `listEndsWith cs sfx` holds when `sfx` is a suffix of `cs`. -/
def listEndsWith (cs sfx : List Char) : Bool :=
  listStartsWith sfx.reverse cs.reverse

/-- ASCII lowercasing of one character (model of `char::to_lowercase`
on the ASCII subset, which is all the inputs the program compares). -/
def lowerChar (c : Char) : Char :=
  if 'A' ≤ c ∧ c ≤ 'Z' then Char.ofNat (c.toNat + 32) else c

/-- ASCII model of `str::to_lowercase`. -/
def lowerStr (s : String) : String :=
  String.mk (s.toList.map lowerChar)

/-- The only regex shape ever handed to `update_config_values`
(both by `set_config_value` and by `apply_preset`): `^\s*KEY\s*=`
where `KEY` is a `regex::escape`d literal (the `Vsync` rule in
`apply_preset` uses the literal `Vsync` directly, which is the same
shape). -/
inductive Pattern where
  | keyEq (key : String)
deriving DecidableEq

/-- After the key, the regex demands `\s*` and then a literal `=`. -/
def expectEq (cs : List Char) : Bool :=
  match cs.dropWhile isRegexSpace with
  | '=' :: _ => true
  | [] => false
  | _ :: _ => false

/-- Matching `^\s*KEY\s*=` against the character list of a line:
either the key (followed by `\s*=`) starts here, or one leading
whitespace character is consumed and we continue.  This is exactly the
set of strings the anchored regex accepts. -/
def keyEqAux (k : List Char) : List Char → Bool
  | [] => listStartsWith k [] && expectEq (List.drop k.length [])
  | c :: rest =>
    (listStartsWith k (c :: rest) && expectEq ((c :: rest).drop k.length))
      || (isRegexSpace c && keyEqAux k rest)

/-- `Regex::is_match` for the patterns of this program. -/
def Pattern.matchesLine : Pattern → String → Bool
  | .keyEq k, line => keyEqAux k.toList line.toList

/-- One rewrite rule handed to `update_config_values`:
`(Regex, String)` — a pattern and a full replacement line. -/
abbrev Rule := Pattern × String

/-- The inner loop of `update_config_values`: try the rules in order,
replace the line with the first matching rule's replacement and `break`;
a line matched by no rule stays as it is. -/
def rewriteLine (changes : List Rule) (line : String) : String :=
  match changes with
  | [] => line
  | (pattern, replacement) :: rest =>
    if pattern.matchesLine line then replacement else rewriteLine rest line

/-- The filesystem state `config.rs` touches in one game directory:
`players/config.ini` (existence plus lines) and the stutter-reduction
pair `d3dcompiler_46.dll` / `d3dcompiler_46.dll.bak`. -/
structure GameDir where
  configExists : Bool
  configLines : List String
  dllPresent : Bool
  bakPresent : Bool
deriving DecidableEq

/-- `update_config_values` (config.rs:18): bail when `config.ini` is
missing, otherwise rewrite every line by the first matching rule and
write the file back.  The success message only feeds the logger and is
omitted from the model. -/
def updateConfigValues (g : GameDir) (changes : List Rule) :
    Except String Unit × GameDir :=
  if g.configExists then
    (Except.ok (), { g with configLines := g.configLines.map (rewriteLine changes) })
  else
    (Except.error "config.ini not found", g)

/-- The replacement line `format!("{} = \"{}\" // {}", key, value, comment)`
built by `apply_preset` (and `set_config_value`). -/
def entryReplacement (key value comment : String) : String :=
  key ++ " = \"" ++ value ++ "\" // " ++ comment

/-- One per-entry rule of `apply_preset`: pattern `^\s*KEY\s*=`
(escaped literal key) with the formatted replacement line. -/
def entryRule (key value comment : String) : Rule :=
  (Pattern.keyEq key, entryReplacement key value comment)

/-- The fixed line injected by the triple-buffering special case. -/
def vsyncLine : String :=
  "Vsync = \"1\" // Enabled with triple-buffered V-sync"

/-- The synthetic rule `(^\s*Vsync\s*=, vsyncLine)` appended by
`apply_preset` when it sees `BackbufferCount = "3"`. -/
def vsyncRule : Rule :=
  (Pattern.keyEq "Vsync", vsyncLine)

/-- `toggle_stutter_reduction` (config.rs:59).  Renames are modelled as
succeeding; every branch of the original returns `Ok(())`. -/
def toggleStutterReduction (g : GameDir) (enable : Bool) :
    Except String Unit × GameDir :=
  if enable then
    if g.dllPresent then
      (Except.ok (), { g with dllPresent := false, bakPresent := true })
    else
      (Except.ok (), g)
  else
    if g.bakPresent then
      (Except.ok (), { g with bakPresent := false, dllPresent := true })
    else
      (Except.ok (), g)

/-- One preset entry `(key, (value, comment))`, in the iteration order
of the preset's map. -/
abbrev PresetEntry := String × String × String

/-- The rule-building loop of `apply_preset` (config.rs:124-139):
`ReduceStutter` entries invoke the binary toggle instead of producing a
rule; every other entry produces its `entryRule`, and a
`BackbufferCount = "3"` entry additionally pushes the synthetic
`vsyncRule` right after its own rule. -/
def processEntries : List PresetEntry → GameDir → GameDir × List Rule
  | [], g => (g, [])
  | (key, value, comment) :: rest, g =>
    if key = "ReduceStutter" then
      processEntries rest (toggleStutterReduction g (value == "1")).2
    else if key = "BackbufferCount" ∧ value = "3" then
      ((processEntries rest g).1,
        entryRule key value comment :: vsyncRule :: (processEntries rest g).2)
    else
      ((processEntries rest g).1,
        entryRule key value comment :: (processEntries rest g).2)

/-- `apply_preset` (config.rs:110): look the preset up by name (unknown
name is an error), bail if `config.ini` is missing, then build the rule
list (toggling on `ReduceStutter` entries) and hand it to
`update_config_values` in one call. -/
def applyPreset (g : GameDir) (presetName : String)
    (presets : List (String × List PresetEntry)) :
    Except String Unit × GameDir :=
  match List.lookup presetName presets with
  | none => (Except.error ("Preset " ++ presetName ++ " not found"), g)
  | some preset =>
    if g.configExists then
      let (g2, changes) := processEntries preset g
      updateConfigValues g2 changes
    else
      (Except.error "config.ini not found", g)

/-- Try to match `KEY\s*=\s*"([^"]+)"` at the head of `cs`; on success
return the capture (the maximal nonempty run of non-quote characters
between the quotes). -/
def matchCaptureAt (key cs : List Char) : Option (List Char) :=
  if listStartsWith key cs then
    match (cs.drop key.length).dropWhile isRegexSpace with
    | '=' :: r2 =>
      match r2.dropWhile isRegexSpace with
      | '"' :: r3 =>
        let cap := r3.takeWhile (fun c => c ≠ '"')
        if cap.isEmpty then none
        else if (r3.drop cap.length).headD ' ' = '"' then some cap else none
      | _ => none
    | _ => none
  else none

/-- Leftmost search of `KEY\s*=\s*"([^"]+)"`: scan positions left to
right and return the first capture. -/
def findCaptureAux (key : List Char) : List Char → Option (List Char)
  | [] => none
  | c :: cs =>
    match matchCaptureAt key (c :: cs) with
    | some cap => some cap
    | none => findCaptureAux key cs

/-- `Regex::captures(content)` + group 1 for the status-reader pattern
`KEY\s*=\s*"([^"]+)"` (the keys are literals needing no escape). -/
def findCapture (key content : String) : Option String :=
  (findCaptureAux key.toList content.toList).map String.mk

/-- Decimal value of a digit list (most significant first). -/
def digitsVal (ds : List Char) : Nat :=
  ds.foldl (fun acc c => acc * 10 + (c.toNat - 48)) 0

/-- Model of `str::parse::<i32>`: optional sign, one or more ASCII
digits, nothing else, and the value must fit in `i32`. -/
def parseI32 (s : String) : Option Int :=
  let signed : Int × List Char :=
    match s.toList with
    | '+' :: r => (1, r)
    | '-' :: r => (-1, r)
    | r => (1, r)
  let ds := signed.2
  if ds.isEmpty || !ds.all Char.isDigit then none
  else
    let v : Int := signed.1 * (digitsVal ds : Nat)
    if -2147483648 ≤ v ∧ v ≤ 2147483647 then some v else none

/-- Split a character list into its leading digit run and the rest. -/
def splitDigits (cs : List Char) : List Char × List Char :=
  (cs.takeWhile Char.isDigit, cs.dropWhile Char.isDigit)

/-- Exact decimal value `sign * (ip . fp) * 10^ex`. -/
def decValue (sign : Int) (ip fp : List Char) (ex : Int) : Rat :=
  let base : Rat := (digitsVal ip : Rat) + (digitsVal fp : Rat) / ((10 : Rat) ^ fp.length)
  let scaled : Rat :=
    if 0 ≤ ex then base * (10 : Rat) ^ ex.toNat else base / (10 : Rat) ^ (-ex).toNat
  (sign : Rat) * scaled

/-- Model of `str::parse::<f32>` over exact decimals: optional sign,
`Digits [. Digits?] | . Digits`, optional `e`/`E` exponent with optional
sign and digits; the whole string must be consumed.  The `inf`/`nan`
forms and binary rounding of `f32` are outside the model. -/
def parseF32 (s : String) : Option Rat :=
  let signed : Int × List Char :=
    match s.toList with
    | '+' :: r => (1, r)
    | '-' :: r => (-1, r)
    | r => (1, r)
  let (ip, r1) := splitDigits signed.2
  let dotted : List Char × List Char :=
    match r1 with
    | '.' :: rest => splitDigits rest
    | _ => ([], r1)
  let fp := dotted.1
  let r2 := dotted.2
  if ip.isEmpty && fp.isEmpty then none
  else
    match r2 with
    | [] => some (decValue signed.1 ip fp 0)
    | c :: rest =>
      if c = 'e' ∨ c = 'E' then
        let esigned : Int × List Char :=
          match rest with
          | '+' :: rr => (1, rr)
          | '-' :: rr => (-1, rr)
          | rr => (1, rr)
        let (eds, r3) := splitDigits esigned.2
        if eds.isEmpty || !r3.isEmpty then none
        else some (decValue signed.1 ip fp (esigned.1 * (digitsVal eds : Nat)))
      else none

/-- `capture_int` (config.rs:210): first capture parsed as `i32`, the
default on a missing capture or parse failure. -/
def captureInt (content key : String) (dflt : Int) : Int :=
  match findCapture key content with
  | some s => (parseI32 s).getD dflt
  | none => dflt

/-- `capture_float` (config.rs:219). -/
def captureFloat (content key : String) (dflt : Rat) : Rat :=
  match findCapture key content with
  | some s => (parseF32 s).getD dflt
  | none => dflt

/-- `capture_string` (config.rs:228). -/
def captureString (content key dflt : String) : String :=
  match findCapture key content with
  | some s => s
  | none => dflt

/-- `capture_bool` (config.rs:237): a captured literal is `true` exactly
when it equals `"1"`; the default applies only when the key is absent. -/
def captureBool (content key : String) (dflt : Bool) : Bool :=
  match findCapture key content with
  | some s => s == "1"
  | none => dflt

/-- `EssentialStatus` (config.rs:148), field for field. -/
structure EssentialStatus where
  max_fps : Int
  fov : Int
  display_mode : Int
  resolution : String
  refresh_rate : Rat
  vsync : Bool
  draw_fps : Bool
  all_settings : Bool
  smooth : Bool
  vram : Bool
  vram_value : Rat
  latency : Int
  reduce_cpu : Bool
  skip_intro : Bool
deriving DecidableEq

/-- `EssentialStatus::default()` — the derived Rust `Default`: zero for
the numeric fields, the empty string, `false` for the booleans. -/
def defaultEssentialStatus : EssentialStatus :=
  { max_fps := 0
    fov := 0
    display_mode := 0
    resolution := ""
    refresh_rate := 0
    vsync := false
    draw_fps := false
    all_settings := false
    smooth := false
    vram := false
    vram_value := 0
    latency := 0
    reduce_cpu := false
    skip_intro := false }

/-- `check_essential_status` (config.rs:166): on a missing `config.ini`
it returns `Ok(EssentialStatus::default())`; otherwise every field is an
independent capture over the file content with its own default
(`skip_intro` is the on-disk presence of the intro-video backup,
passed in here as a flag).  The read itself is modelled as succeeding,
so the embedded function is total — the `Result` never carries an error
on the modelled paths. -/
def checkEssentialStatus (configExists : Bool) (content : String)
    (introBakExists : Bool) : EssentialStatus :=
  if configExists then
    let vramEnabled := captureString content "VideoMemory" "1"
    let streamMin := captureString content "StreamMinResident" "0"
    { max_fps := captureInt content "MaxFPS" 165
      fov := captureInt content "FOV" 80
      display_mode := captureInt content "FullScreenMode" 1
      resolution := captureString content "WindowSize" "2560x1440"
      refresh_rate := captureFloat content "RefreshRate" 165
      vsync := captureBool content "Vsync" true
      draw_fps := captureBool content "DrawFPS" false
      all_settings := captureBool content "RestrictGraphicsOptions" false
      smooth := captureBool content "SmoothFramerate" false
      vram := !(vramEnabled == "1" && streamMin == "0")
      vram_value := (parseF32 vramEnabled).getD ((3 : Rat) / 4)
      latency := captureInt content "MaxFrameLatency" 1
      reduce_cpu := captureBool content "SerializeRender" false
      skip_intro := introBakExists }
  else
    defaultEssentialStatus

/-- The filesystem state `update_t7patch_conf` touches:
`t7patch.conf` existence and lines. -/
structure T7State where
  confExists : Bool
  confLines : List String
deriving DecidableEq

/-- `str::starts_with` on our string model. -/
def strStartsWith (s pre : String) : Bool :=
  listStartsWith pre.toList s.toList

/-- The per-line body of the `update_t7patch_conf` loop: each requested
field rewrites the line bearing its prefix; the first matching requested
field wins (the prefixes are mutually exclusive anyway) and untouched
lines pass through verbatim. -/
def t7MapLine (newName newPassword : Option String) (friendsOnly : Option Bool)
    (line : String) : String :=
  if newName.isSome && strStartsWith line "playername=" then
    "playername=" ++ newName.getD ""
  else if newPassword.isSome && strStartsWith line "networkpassword=" then
    "networkpassword=" ++ newPassword.getD ""
  else if friendsOnly.isSome && strStartsWith line "isfriendsonly=" then
    "isfriendsonly=" ++ (if friendsOnly.getD false then "1" else "0")
  else line

/-- `update_t7patch_conf` (t7patch.rs:14): when `t7patch.conf` is
missing it logs a warning and returns `Ok(())` without touching
anything; otherwise each requested field rewrites its line in place, and
any requested field whose key was on no line is appended (name, then
password, then friends-only). -/
def updateT7patchConf (st : T7State) (newName newPassword : Option String)
    (friendsOnly : Option Bool) : Except String Unit × T7State :=
  if st.confExists then
    let lines := st.confLines
    let mapped := lines.map (t7MapLine newName newPassword friendsOnly)
    let nameFound := newName.isSome && lines.any (fun l => strStartsWith l "playername=")
    let passwordFound :=
      newPassword.isSome && lines.any (fun l => strStartsWith l "networkpassword=")
    let friendsFound :=
      friendsOnly.isSome && lines.any (fun l => strStartsWith l "isfriendsonly=")
    let out1 :=
      match newName with
      | some n => if nameFound then mapped else mapped ++ ["playername=" ++ n]
      | none => mapped
    let out2 :=
      match newPassword with
      | some p => if passwordFound then out1 else out1 ++ ["networkpassword=" ++ p]
      | none => out1
    let out3 :=
      match friendsOnly with
      | some f =>
        if friendsFound then out2
        else out2 ++ ["isfriendsonly=" ++ (if f then "1" else "0")]
      | none => out2
    (Except.ok (), { st with confLines := out3 })
  else
    (Except.ok (), st)

/-- `ReleaseAssetLink` (dxvk.rs:44). -/
structure ReleaseAssetLink where
  url : String
  name : Option String
deriving DecidableEq

/-- `ReleaseAssets` (dxvk.rs:50). -/
structure ReleaseAssets where
  links : Option (List ReleaseAssetLink)
  sources : Option (List ReleaseAssetLink)
deriving DecidableEq

/-- `Release` (dxvk.rs:56). -/
structure Release where
  assets : Option ReleaseAssets
  name : Option String
  tag_name : Option String
deriving DecidableEq

/-- The candidate list built by `preferred_asset_url` (dxvk.rs:63-77):
all the `links` when present, and only when that leaves the list empty,
all the `sources`. -/
def candidatesOf (r : Release) : List ReleaseAssetLink :=
  match r.assets with
  | none => []
  | some a =>
    let cands := a.links.getD []
    if cands.isEmpty then a.sources.getD [] else cands

/-- `link.url.to_lowercase().ends_with(suffix)`. -/
def urlEndsWith (l : ReleaseAssetLink) (sfx : String) : Bool :=
  listEndsWith (lowerStr l.url).toList sfx.toList

/-- The suffix preference order of `preferred_asset_url` (dxvk.rs:82). -/
def preferredSuffixes : List String :=
  [".zip", ".tar.xz", ".tar.gz", ".tar.bz2", ".tar.zst", ".tzst"]

/-- The nested search loop of `preferred_asset_url`: for each suffix in
order, the first candidate whose lowercased URL ends with it. -/
def findPreferred : List String → List ReleaseAssetLink → Option ReleaseAssetLink
  | [], _ => none
  | sfx :: rest, cands =>
    match cands.find? (fun l => urlEndsWith l sfx) with
    | some l => some l
    | none => findPreferred rest cands

/-- `preferred_asset_url` (dxvk.rs:62): error when there is no
candidate; otherwise the first candidate matching the most preferred
suffix, falling back to `candidates[0]`. -/
def preferredAssetUrl (r : Release) : Except String String :=
  match candidatesOf r with
  | [] => Except.error "No downloadable asset found in DXVK release metadata"
  | first :: rest =>
    match findPreferred preferredSuffixes (first :: rest) with
    | some l => Except.ok l.url
    | none => Except.ok first.url

/-- Spec-side restatement of the preference order (section 6 of the
spec): prefer `.zip`, then `.tar.xz`, `.tar.gz`, `.tar.bz2`,
`.tar.zst`, `.tzst`, else the first candidate.  Written from the spec's
words, to be compared with `preferredAssetUrl`. -/
def specPreferredChoice (cands : List ReleaseAssetLink)
    (first : ReleaseAssetLink) : String :=
  match cands.find? (fun l => urlEndsWith l ".zip") with
  | some l => l.url
  | none =>
    match cands.find? (fun l => urlEndsWith l ".tar.xz") with
    | some l => l.url
    | none =>
      match cands.find? (fun l => urlEndsWith l ".tar.gz") with
      | some l => l.url
      | none =>
        match cands.find? (fun l => urlEndsWith l ".tar.bz2") with
        | some l => l.url
        | none =>
          match cands.find? (fun l => urlEndsWith l ".tar.zst") with
          | some l => l.url
          | none =>
            match cands.find? (fun l => urlEndsWith l ".tzst") with
            | some l => l.url
            | none => first.url

/-! ## Line rewriter lemmas -/

/-- The first-match-wins loop computes the `find?` of the rule list. -/
theorem rewriteLine_eq_find (changes : List Rule) (line : String) :
    rewriteLine changes line =
      ((changes.find? (fun c => c.1.matchesLine line)).map Prod.snd).getD line := by
  induction changes with
  | nil => rfl
  | cons c rest ih =>
    obtain ⟨p, r⟩ := c
    by_cases h : p.matchesLine line
    · simp [rewriteLine, h, List.find?_cons_of_pos]
    · simpa [rewriteLine, h, List.find?_cons_of_neg] using ih

/-- A line matched by no rule stays unchanged. -/
theorem rewriteLine_of_no_match (changes : List Rule) (line : String)
    (h : ∀ c ∈ changes, c.1.matchesLine line = false) :
    rewriteLine changes line = line := by
  induction changes with
  | nil => rfl
  | cons c rest ih =>
    obtain ⟨p, r⟩ := c
    have hp := h (p, r) (List.mem_cons_self _ _)
    simp only [rewriteLine, hp, Bool.false_eq_true, if_false]
    exact ih fun c hc => h c (List.mem_cons_of_mem _ hc)

/-- A rewritten line is either the original or some rule's replacement. -/
theorem rewriteLine_cases (changes : List Rule) (line : String) :
    rewriteLine changes line = line ∨
      ∃ c ∈ changes, rewriteLine changes line = c.2 := by
  induction changes with
  | nil => exact Or.inl rfl
  | cons c rest ih =>
    obtain ⟨p, r⟩ := c
    by_cases h : p.matchesLine line
    · exact Or.inr ⟨(p, r), List.mem_cons_self _ _, by simp [rewriteLine, h]⟩
    · rcases ih with h1 | ⟨c', hc', h2⟩
      · exact Or.inl (by simp [rewriteLine, h, h1])
      · exact Or.inr ⟨c', List.mem_cons_of_mem _ hc', by simp [rewriteLine, h, h2]⟩

/-- A line every rule either misses or maps to itself is a fixed point. -/
theorem rewriteLine_fixed (changes : List Rule) (r : String)
    (h : ∀ c ∈ changes, c.1.matchesLine r = false ∨ c.2 = r) :
    rewriteLine changes r = r := by
  induction changes with
  | nil => rfl
  | cons c rest ih =>
    obtain ⟨p, rep⟩ := c
    have hrest : rewriteLine rest r = r :=
      ih fun c hc => h c (List.mem_cons_of_mem _ hc)
    rcases h (p, rep) (List.mem_cons_self _ _) with hm | he
    · simp [rewriteLine, hm, hrest]
    · by_cases hp : p.matchesLine r
      · simpa [rewriteLine, hp] using he
      · simp [rewriteLine, hp, hrest]

/-- When no rule's replacement matches a different rule's pattern, one
rewriting pass is a fixed point of a second pass, line by line. -/
theorem rewriteLine_idem (changes : List Rule) (line : String)
    (H : ∀ c ∈ changes, ∀ c' ∈ changes, c ≠ c' → c'.1.matchesLine c.2 = false) :
    rewriteLine changes (rewriteLine changes line) = rewriteLine changes line := by
  rcases rewriteLine_cases changes line with h | ⟨c, hc, h⟩
  · rw [h]; exact h
  · rw [h]
    apply rewriteLine_fixed
    intro c' hc'
    by_cases hcc : c' = c
    · exact Or.inr (by rw [hcc])
    · exact Or.inl (H c hc c' hc' fun he => hcc he.symm)

/-! ## Claim theorems C1, C2 -/

/-- C1: for every input file and ordered rule list, `update_config_values`
replaces each line by the replacement of the earliest rule whose pattern
matches that line (later rules are skipped for that line), and leaves a
line matched by no rule unchanged — the rewritten file is exactly the
map of first-match substitution over the original lines. -/
theorem update_config_values_first_match_wins (g : GameDir) (changes : List Rule)
    (hex : g.configExists = true) :
    updateConfigValues g changes =
      (Except.ok (), { g with configLines := g.configLines.map (fun line =>
        ((changes.find? (fun c => c.1.matchesLine line)).map Prod.snd).getD line) }) := by
  have hfun : rewriteLine changes = fun line =>
      ((changes.find? (fun c => c.1.matchesLine line)).map Prod.snd).getD line :=
    funext fun line => rewriteLine_eq_find changes line
  simp [updateConfigValues, hex, hfun]

/-- Witness for C1 on a concrete file and rule list: the second of two
matching rules is skipped and the non-matching line is untouched. -/
theorem update_config_values_first_match_wins_witness :
    updateConfigValues ⟨true, ["MaxFPS = \"60\" // cap", "other line"], false, false⟩
        [(Pattern.keyEq "MaxFPS", "MaxFPS = \"165\" // first"),
         (Pattern.keyEq "MaxFPS", "MaxFPS = \"240\" // second")] =
      (Except.ok (), ⟨true, ["MaxFPS = \"165\" // first", "other line"], false, false⟩) := by
  have h := update_config_values_first_match_wins
    ⟨true, ["MaxFPS = \"60\" // cap", "other line"], false, false⟩
    [(Pattern.keyEq "MaxFPS", "MaxFPS = \"165\" // first"),
     (Pattern.keyEq "MaxFPS", "MaxFPS = \"240\" // second")] rfl
  rw [h]
  rfl

/-- C2: when no rule's replacement line matches a different rule's
pattern, applying `update_config_values` twice with the same rules gives
the same outcome (result and file) as applying it once. -/
theorem update_config_values_idempotent (g : GameDir) (changes : List Rule)
    (H : ∀ c ∈ changes, ∀ c' ∈ changes, c ≠ c' → c'.1.matchesLine c.2 = false)
    (hex : g.configExists = true) :
    updateConfigValues (updateConfigValues g changes).2 changes =
      updateConfigValues g changes := by
  have hmap : ∀ lines : List String,
      List.map (rewriteLine changes) (List.map (rewriteLine changes) lines) =
        List.map (rewriteLine changes) lines := by
    intro lines
    induction lines with
    | nil => rfl
    | cons l ls ih => simp [List.map, ih, rewriteLine_idem changes l H]
  simp [updateConfigValues, hex, hmap]

/-- Witness for C2 on a concrete file and rule list. -/
theorem update_config_values_idempotent_witness :
    updateConfigValues
        (updateConfigValues ⟨true, ["MaxFPS = \"60\" // cap", "other line"], false, false⟩
          [(Pattern.keyEq "MaxFPS", "MaxFPS = \"165\" // uncapped")]).2
        [(Pattern.keyEq "MaxFPS", "MaxFPS = \"165\" // uncapped")] =
      updateConfigValues ⟨true, ["MaxFPS = \"60\" // cap", "other line"], false, false⟩
        [(Pattern.keyEq "MaxFPS", "MaxFPS = \"165\" // uncapped")] := by
  apply update_config_values_idempotent
  · intro c hc c' hc' hne
    rcases List.mem_singleton.mp hc with rfl
    rcases List.mem_singleton.mp hc' with rfl
    exact absurd rfl hne
  · rfl

/-! ## Claim theorems C5, C7, C8 -/

/-- C5: `apply_preset` fails with a "preset not found" error on every
name absent from the preset table, and with a "not found" error when
`config.ini` is missing; in both cases the returned state is the input
state — nothing was toggled or rewritten. -/
theorem apply_preset_missing_errors (g : GameDir) (presetName : String)
    (presets : List (String × List PresetEntry)) :
    (List.lookup presetName presets = none →
      applyPreset g presetName presets =
        (Except.error ("Preset " ++ presetName ++ " not found"), g))
    ∧ (∀ preset, List.lookup presetName presets = some preset →
        g.configExists = false →
        applyPreset g presetName presets = (Except.error "config.ini not found", g)) := by
  constructor
  · intro h
    simp [applyPreset, h]
  · intro preset hp hex
    simp [applyPreset, hp, hex]

/-- Witness for C5: an unknown preset name, and a known name with the
config file missing, both fail leaving the concrete state untouched. -/
theorem apply_preset_missing_errors_witness :
    applyPreset ⟨true, ["a"], false, false⟩ "Quality" [("Performance", [])] =
      (Except.error ("Preset " ++ "Quality" ++ " not found"), ⟨true, ["a"], false, false⟩)
    ∧ applyPreset ⟨false, ["a"], false, false⟩ "Performance" [("Performance", [])] =
      (Except.error "config.ini not found", ⟨false, ["a"], false, false⟩) :=
  ⟨(apply_preset_missing_errors ⟨true, ["a"], false, false⟩ "Quality"
      [("Performance", [])]).1 rfl,
   (apply_preset_missing_errors ⟨false, ["a"], false, false⟩ "Performance"
      [("Performance", [])]).2 [] rfl rfl⟩

/-- C7: from the `Active` layout (dll present, backup absent) enabling
and then disabling the stutter toggle restores exactly the original
state with both calls returning `Ok`; and enabling from the `Unknown`
layout (neither file present) performs no rename and returns `Ok` with
the state unchanged. -/
theorem toggle_stutter_reduction_round_trip (g : GameDir) :
    (g.dllPresent = true → g.bakPresent = false →
      toggleStutterReduction (toggleStutterReduction g true).2 false =
        (Except.ok (), g))
    ∧ (g.dllPresent = false → g.bakPresent = false →
      toggleStutterReduction g true = (Except.ok (), g)) := by
  obtain ⟨ce, cl, dp, bp⟩ := g
  constructor
  · intro h1 h2
    simp only at h1 h2
    subst h1; subst h2
    simp [toggleStutterReduction]
  · intro h1 h2
    simp only at h1 h2
    subst h1; subst h2
    simp [toggleStutterReduction]

/-- Witness for C7: the round trip and the `Unknown` no-op on concrete
directory states. -/
theorem toggle_stutter_reduction_round_trip_witness :
    toggleStutterReduction
        (toggleStutterReduction ⟨true, ["l"], true, false⟩ true).2 false =
      (Except.ok (), (⟨true, ["l"], true, false⟩ : GameDir))
    ∧ toggleStutterReduction ⟨true, ["l"], false, false⟩ true =
      (Except.ok (), (⟨true, ["l"], false, false⟩ : GameDir)) :=
  ⟨(toggle_stutter_reduction_round_trip ⟨true, ["l"], true, false⟩).1 rfl rfl,
   (toggle_stutter_reduction_round_trip ⟨true, ["l"], false, false⟩).2 rfl rfl⟩

/-- C8 counterexample: `update_t7patch_conf` on a missing `t7patch.conf`
returns `Ok(())` (with the state untouched) instead of surfacing the
missing file as an error — the returned value is `Except.ok`, not any
`Except.error`, refuting the claim at this concrete input. -/
theorem missing_file_surfaced_counterexample :
    updateT7patchConf ⟨false, []⟩ (some "Alice") none none =
      (Except.ok (), (⟨false, []⟩ : T7State)) := by
  rfl

/-- C8 (amended): a missing `config.ini` is surfaced as an error by
`update_config_values` and by `apply_preset` (state unchanged), but
`update_t7patch_conf` is a further lenient exception alongside the
Binary Toggle and the status readers: on a missing `t7patch.conf` it
logs a warning and returns `Ok` without modifying anything. -/
theorem missing_file_surfaced (g : GameDir) (changes : List Rule)
    (presetName : String) (presets : List (String × List PresetEntry))
    (st : T7State) (newName newPassword : Option String) (friendsOnly : Option Bool) :
    (g.configExists = false →
      updateConfigValues g changes = (Except.error "config.ini not found", g))
    ∧ (∀ preset, List.lookup presetName presets = some preset →
        g.configExists = false →
        applyPreset g presetName presets = (Except.error "config.ini not found", g))
    ∧ (st.confExists = false →
        updateT7patchConf st newName newPassword friendsOnly = (Except.ok (), st)) := by
  refine ⟨?_, ?_, ?_⟩
  · intro hex
    simp [updateConfigValues, hex]
  · intro preset hp hex
    simp [applyPreset, hp, hex]
  · intro hc
    simp [updateT7patchConf, hc]

/-- Witness for the amended C8 at concrete states. -/
theorem missing_file_surfaced_witness :
    updateConfigValues ⟨false, ["x"], false, false⟩ [] =
      (Except.error "config.ini not found", ⟨false, ["x"], false, false⟩)
    ∧ applyPreset ⟨false, ["x"], false, false⟩ "Performance" [("Performance", [])] =
      (Except.error "config.ini not found", ⟨false, ["x"], false, false⟩)
    ∧ updateT7patchConf ⟨false, ["y"]⟩ none (some "pw") none =
      (Except.ok (), (⟨false, ["y"]⟩ : T7State)) := by
  obtain ⟨h1, h2, h3⟩ := missing_file_surfaced ⟨false, ["x"], false, false⟩ []
    "Performance" [("Performance", [])] ⟨false, ["y"]⟩ none (some "pw") none
  exact ⟨h1 rfl, h2 [] rfl rfl, h3 rfl⟩

/-! ## Preset-expansion lemmas and claim theorem C3 -/

/-- Branch equation: a `ReduceStutter` entry only toggles. -/
theorem processEntries_cons_toggle (value comment : String)
    (rest : List PresetEntry) (g : GameDir) :
    processEntries (("ReduceStutter", value, comment) :: rest) g =
      processEntries rest (toggleStutterReduction g (value == "1")).2 := by
  simp [processEntries]

/-- Branch equation: a `BackbufferCount = "3"` entry pushes its own rule
and then the synthetic vsync rule. -/
theorem processEntries_cons_bb (key value comment : String)
    (rest : List PresetEntry) (g : GameDir)
    (_hk : ¬ key = "ReduceStutter") (hbb : key = "BackbufferCount" ∧ value = "3") :
    processEntries ((key, value, comment) :: rest) g =
      ((processEntries rest g).1,
        entryRule key value comment :: vsyncRule :: (processEntries rest g).2) := by
  simp [processEntries, hbb.1, hbb]

/-- Branch equation: any other entry pushes exactly its own rule. -/
theorem processEntries_cons_other (key value comment : String)
    (rest : List PresetEntry) (g : GameDir)
    (hk : ¬ key = "ReduceStutter") (hbb : ¬ (key = "BackbufferCount" ∧ value = "3")) :
    processEntries ((key, value, comment) :: rest) g =
      ((processEntries rest g).1,
        entryRule key value comment :: (processEntries rest g).2) := by
  simp [processEntries, hk, hbb]

/-- Every rule built by the preset loop is either some entry's own rule
or the synthetic vsync rule. -/
theorem processEntries_rule_mem (entries : List PresetEntry) : ∀ (g : GameDir) (r : Rule),
    r ∈ (processEntries entries g).2 →
    (∃ e ∈ entries, r = entryRule e.1 e.2.1 e.2.2) ∨ r = vsyncRule := by
  induction entries with
  | nil =>
    intro g r h
    simp [processEntries] at h
  | cons e rest ih =>
    intro g r h
    obtain ⟨key, value, comment⟩ := e
    by_cases hk : key = "ReduceStutter"
    · subst hk
      rw [processEntries_cons_toggle] at h
      rcases ih _ r h with ⟨e', he', heq⟩ | hv
      · exact Or.inl ⟨e', List.mem_cons_of_mem _ he', heq⟩
      · exact Or.inr hv
    · by_cases hbb : key = "BackbufferCount" ∧ value = "3"
      · rw [processEntries_cons_bb key value comment rest g hk hbb] at h
        rcases List.mem_cons.mp h with heq | h2
        · exact Or.inl ⟨(key, value, comment), List.mem_cons_self _ _, heq⟩
        · rcases List.mem_cons.mp h2 with heq2 | h3
          · exact Or.inr heq2
          · rcases ih _ r h3 with ⟨e', he', heq⟩ | hv
            · exact Or.inl ⟨e', List.mem_cons_of_mem _ he', heq⟩
            · exact Or.inr hv
      · rw [processEntries_cons_other key value comment rest g hk hbb] at h
        rcases List.mem_cons.mp h with heq | h2
        · exact Or.inl ⟨(key, value, comment), List.mem_cons_self _ _, heq⟩
        · rcases ih _ r h2 with ⟨e', he', heq⟩ | hv
          · exact Or.inl ⟨e', List.mem_cons_of_mem _ he', heq⟩
          · exact Or.inr hv

/-- A `BackbufferCount = "3"` entry forces the synthetic vsync rule into
the built rule list. -/
theorem vsyncRule_mem_processEntries (entries : List PresetEntry) (c : String) :
    ∀ (g : GameDir), ("BackbufferCount", "3", c) ∈ entries →
    vsyncRule ∈ (processEntries entries g).2 := by
  induction entries with
  | nil =>
    intro g h
    simp at h
  | cons e rest ih =>
    intro g h
    rcases List.mem_cons.mp h with heq | hmem
    · cases heq
      rw [processEntries_cons_bb "BackbufferCount" "3" c rest g (by decide) ⟨rfl, rfl⟩]
      exact List.mem_cons_of_mem _ (List.mem_cons_self _ _)
    · obtain ⟨key, value, comment⟩ := e
      by_cases hk : key = "ReduceStutter"
      · subst hk
        rw [processEntries_cons_toggle]
        exact ih _ hmem
      · by_cases hbb : key = "BackbufferCount" ∧ value = "3"
        · rw [processEntries_cons_bb key value comment rest g hk hbb]
          exact List.mem_cons_of_mem _ (List.mem_cons_self _ _)
        · rw [processEntries_cons_other key value comment rest g hk hbb]
          exact List.mem_cons_of_mem _ (ih _ hmem)

/-- Without a `BackbufferCount = "3"` entry, and with no entry whose own
replacement line is the fixed vsync line, the synthetic vsync rule is
not among the built rules. -/
theorem vsyncRule_not_mem_processEntries (entries : List PresetEntry) :
    ∀ (g : GameDir),
    (∀ c, ("BackbufferCount", "3", c) ∉ entries) →
    (∀ e ∈ entries, entryReplacement e.1 e.2.1 e.2.2 ≠ vsyncLine) →
    vsyncRule ∉ (processEntries entries g).2 := by
  induction entries with
  | nil =>
    intro g h1 h2
    simp [processEntries]
  | cons e rest ih =>
    intro g h1 h2
    obtain ⟨key, value, comment⟩ := e
    have h1r : ∀ c, ("BackbufferCount", "3", c) ∉ rest :=
      fun c hc => h1 c (List.mem_cons_of_mem _ hc)
    have h2r : ∀ e ∈ rest, entryReplacement e.1 e.2.1 e.2.2 ≠ vsyncLine :=
      fun e he => h2 e (List.mem_cons_of_mem _ he)
    by_cases hk : key = "ReduceStutter"
    · subst hk
      rw [processEntries_cons_toggle]
      exact ih _ h1r h2r
    · have hbb : ¬ (key = "BackbufferCount" ∧ value = "3") := by
        rintro ⟨rfl, rfl⟩
        exact h1 comment (List.mem_cons_self _ _)
      rw [processEntries_cons_other key value comment rest g hk hbb]
      intro hmem
      rcases List.mem_cons.mp hmem with heq | hmem2
      · exact h2 (key, value, comment) (List.mem_cons_self _ _)
          (congrArg Prod.snd heq).symm
      · exact ih _ h1r h2r hmem2

/-- A rewriting pass whose rules never produce `target` can only yield
`target` on a line that already was `target`. -/
theorem rewriteLine_target_origin (changes : List Rule) (line target : String)
    (h : ∀ c ∈ changes, c.2 ≠ target) (hh : rewriteLine changes line = target) :
    line = target := by
  induction changes with
  | nil => exact hh
  | cons c rest ih =>
    obtain ⟨p, r⟩ := c
    by_cases hp : p.matchesLine line
    · rw [show rewriteLine ((p, r) :: rest) line = r from by simp [rewriteLine, hp]] at hh
      exact absurd hh (h (p, r) (List.mem_cons_self _ _))
    · rw [show rewriteLine ((p, r) :: rest) line = rewriteLine rest line from by
        simp [rewriteLine, hp]] at hh
      exact ih (fun c hc => h c (List.mem_cons_of_mem _ hc)) hh

/-- C3: `apply_preset` appends the synthetic vsync rule whenever the
preset holds a `BackbufferCount` entry with value exactly `"3"`; for a
preset with no such entry (and none whose own formatted line equals the
fixed vsync line — the only way the reserved line could arise other
than by injection) the rule list carries no vsync rule, and the
rewritten file can contain the fixed vsync line only where the input
already did. -/
theorem apply_preset_vsync_synthetic (entries : List PresetEntry) (g : GameDir) :
    ((∃ c, ("BackbufferCount", "3", c) ∈ entries) →
      vsyncRule ∈ (processEntries entries g).2)
    ∧ ((∀ c, ("BackbufferCount", "3", c) ∉ entries) →
       (∀ e ∈ entries, entryReplacement e.1 e.2.1 e.2.2 ≠ vsyncLine) →
       vsyncRule ∉ (processEntries entries g).2
       ∧ ∀ line, rewriteLine (processEntries entries g).2 line = vsyncLine →
           line = vsyncLine) := by
  constructor
  · rintro ⟨c, hc⟩
    exact vsyncRule_mem_processEntries entries c g hc
  · intro h1 h2
    have hnot := vsyncRule_not_mem_processEntries entries g h1 h2
    refine ⟨hnot, fun line hline => ?_⟩
    apply rewriteLine_target_origin (processEntries entries g).2 line vsyncLine ?_ hline
    intro c hc hceq
    rcases processEntries_rule_mem entries g c hc with ⟨e, he, heq⟩ | hv
    · exact h2 e he (by rw [heq] at hceq; exact hceq)
    · exact hnot (hv ▸ hc)

/-- Witness for C3: a preset with `BackbufferCount = "3"` gets the
synthetic rule; a preset with `BackbufferCount = "2"` does not. -/
theorem apply_preset_vsync_synthetic_witness :
    vsyncRule ∈
      (processEntries [("BackbufferCount", "3", "triple")]
        ⟨true, [], false, false⟩).2
    ∧ vsyncRule ∉
      (processEntries [("BackbufferCount", "2", "double")]
        ⟨true, [], false, false⟩).2 := by
  constructor
  · exact (apply_preset_vsync_synthetic [("BackbufferCount", "3", "triple")]
      ⟨true, [], false, false⟩).1 ⟨"triple", List.mem_cons_self _ _⟩
  · refine ((apply_preset_vsync_synthetic [("BackbufferCount", "2", "double")]
      ⟨true, [], false, false⟩).2 ?_ ?_).1
    · intro c hc
      rcases List.mem_singleton.mp hc with heq
      have h32 : ("3" : String) = "2" := congrArg (fun p : PresetEntry => p.2.1) heq
      exact absurd h32 (by decide)
    · intro e he hrep
      rcases List.mem_singleton.mp he with rfl
      exact absurd hrep (by decide)

/-! ## Status reader: claim theorems C4, C6 -/

/-- C4: the derived `vram` display boolean is the negation of
"(VideoMemory capture == "1") and (StreamMinResident capture == "0")",
with a missing `VideoMemory` key defaulting its capture to `"1"` and a
missing `StreamMinResident` key defaulting its capture to `"0"`; on a
missing file (the Rust `Default`) and on a file with both keys absent
the field is `false`. -/
theorem check_essential_status_vram (content : String) (ib : Bool) :
    (checkEssentialStatus true content ib).vram =
      !((captureString content "VideoMemory" "1" == "1")
        && (captureString content "StreamMinResident" "0" == "0"))
    ∧ (findCapture "VideoMemory" content = none →
        captureString content "VideoMemory" "1" = "1")
    ∧ (findCapture "StreamMinResident" content = none →
        captureString content "StreamMinResident" "0" = "0")
    ∧ (checkEssentialStatus false content ib).vram = false
    ∧ (findCapture "VideoMemory" content = none →
       findCapture "StreamMinResident" content = none →
       (checkEssentialStatus true content ib).vram = false) := by
  refine ⟨?_, ?_, ?_, ?_, ?_⟩
  · simp [checkEssentialStatus]
  · intro h
    simp [captureString, h]
  · intro h
    simp [captureString, h]
  · simp [checkEssentialStatus, defaultEssentialStatus]
  · intro h1 h2
    simp [checkEssentialStatus, captureString, h1, h2]

/-- Witness for C4 at the empty file content (both keys absent). -/
theorem check_essential_status_vram_witness :
    (checkEssentialStatus true "" false).vram =
      !((captureString "" "VideoMemory" "1" == "1")
        && (captureString "" "StreamMinResident" "0" == "0"))
    ∧ captureString "" "VideoMemory" "1" = "1"
    ∧ captureString "" "StreamMinResident" "0" = "0"
    ∧ (checkEssentialStatus false "" false).vram = false
    ∧ (checkEssentialStatus true "" false).vram = false := by
  obtain ⟨h1, h2, h3, h4, h5⟩ := check_essential_status_vram "" false
  exact ⟨h1, h2 rfl, h3 rfl, h4, h5 rfl rfl⟩

/-- C6: `check_essential_status` never fails: on a missing `config.ini`
it returns `Ok` with the all-defaults snapshot (the Rust
`EssentialStatus::default()`, i.e. zero/empty/false for every field —
distinct from the per-field capture defaults used over an existing
file); and on an existing file, every directly-captured field carries
its documented default whenever its key is absent or its captured value
unparsable, each extracted independently of every other field (the
derived `vram`, `vram_value` and `skip_intro` fields have no key of
their own; `vram` is settled by C4).  Boolean fields are true iff the
captured literal equals `"1"`. -/
theorem check_essential_status_defaults (content : String) (ib : Bool) :
    checkEssentialStatus false content ib = defaultEssentialStatus
    ∧ (findCapture "MaxFPS" content = none →
        (checkEssentialStatus true content ib).max_fps = 165)
    ∧ (∀ s, findCapture "MaxFPS" content = some s → parseI32 s = none →
        (checkEssentialStatus true content ib).max_fps = 165)
    ∧ (∀ c2, findCapture "MaxFPS" content = findCapture "MaxFPS" c2 →
        (checkEssentialStatus true content ib).max_fps =
          (checkEssentialStatus true c2 ib).max_fps)
    ∧ (findCapture "FOV" content = none →
        (checkEssentialStatus true content ib).fov = 80)
    ∧ (∀ s, findCapture "FOV" content = some s → parseI32 s = none →
        (checkEssentialStatus true content ib).fov = 80)
    ∧ (∀ c2, findCapture "FOV" content = findCapture "FOV" c2 →
        (checkEssentialStatus true content ib).fov =
          (checkEssentialStatus true c2 ib).fov)
    ∧ (findCapture "FullScreenMode" content = none →
        (checkEssentialStatus true content ib).display_mode = 1)
    ∧ (∀ s, findCapture "FullScreenMode" content = some s → parseI32 s = none →
        (checkEssentialStatus true content ib).display_mode = 1)
    ∧ (∀ c2, findCapture "FullScreenMode" content = findCapture "FullScreenMode" c2 →
        (checkEssentialStatus true content ib).display_mode =
          (checkEssentialStatus true c2 ib).display_mode)
    ∧ (findCapture "WindowSize" content = none →
        (checkEssentialStatus true content ib).resolution = "2560x1440")
    ∧ (∀ c2, findCapture "WindowSize" content = findCapture "WindowSize" c2 →
        (checkEssentialStatus true content ib).resolution =
          (checkEssentialStatus true c2 ib).resolution)
    ∧ (findCapture "RefreshRate" content = none →
        (checkEssentialStatus true content ib).refresh_rate = 165)
    ∧ (∀ s, findCapture "RefreshRate" content = some s → parseF32 s = none →
        (checkEssentialStatus true content ib).refresh_rate = 165)
    ∧ (∀ c2, findCapture "RefreshRate" content = findCapture "RefreshRate" c2 →
        (checkEssentialStatus true content ib).refresh_rate =
          (checkEssentialStatus true c2 ib).refresh_rate)
    ∧ (findCapture "Vsync" content = none →
        (checkEssentialStatus true content ib).vsync = true)
    ∧ (∀ s, findCapture "Vsync" content = some s →
        (checkEssentialStatus true content ib).vsync = (s == "1"))
    ∧ (∀ c2, findCapture "Vsync" content = findCapture "Vsync" c2 →
        (checkEssentialStatus true content ib).vsync =
          (checkEssentialStatus true c2 ib).vsync)
    ∧ (findCapture "DrawFPS" content = none →
        (checkEssentialStatus true content ib).draw_fps = false)
    ∧ (∀ s, findCapture "DrawFPS" content = some s →
        (checkEssentialStatus true content ib).draw_fps = (s == "1"))
    ∧ (∀ c2, findCapture "DrawFPS" content = findCapture "DrawFPS" c2 →
        (checkEssentialStatus true content ib).draw_fps =
          (checkEssentialStatus true c2 ib).draw_fps)
    ∧ (findCapture "RestrictGraphicsOptions" content = none →
        (checkEssentialStatus true content ib).all_settings = false)
    ∧ (∀ s, findCapture "RestrictGraphicsOptions" content = some s →
        (checkEssentialStatus true content ib).all_settings = (s == "1"))
    ∧ (∀ c2, findCapture "RestrictGraphicsOptions" content =
          findCapture "RestrictGraphicsOptions" c2 →
        (checkEssentialStatus true content ib).all_settings =
          (checkEssentialStatus true c2 ib).all_settings)
    ∧ (findCapture "SmoothFramerate" content = none →
        (checkEssentialStatus true content ib).smooth = false)
    ∧ (∀ s, findCapture "SmoothFramerate" content = some s →
        (checkEssentialStatus true content ib).smooth = (s == "1"))
    ∧ (∀ c2, findCapture "SmoothFramerate" content = findCapture "SmoothFramerate" c2 →
        (checkEssentialStatus true content ib).smooth =
          (checkEssentialStatus true c2 ib).smooth)
    ∧ (findCapture "MaxFrameLatency" content = none →
        (checkEssentialStatus true content ib).latency = 1)
    ∧ (∀ s, findCapture "MaxFrameLatency" content = some s → parseI32 s = none →
        (checkEssentialStatus true content ib).latency = 1)
    ∧ (∀ c2, findCapture "MaxFrameLatency" content = findCapture "MaxFrameLatency" c2 →
        (checkEssentialStatus true content ib).latency =
          (checkEssentialStatus true c2 ib).latency)
    ∧ (findCapture "SerializeRender" content = none →
        (checkEssentialStatus true content ib).reduce_cpu = false)
    ∧ (∀ s, findCapture "SerializeRender" content = some s →
        (checkEssentialStatus true content ib).reduce_cpu = (s == "1"))
    ∧ (∀ c2, findCapture "SerializeRender" content = findCapture "SerializeRender" c2 →
        (checkEssentialStatus true content ib).reduce_cpu =
          (checkEssentialStatus true c2 ib).reduce_cpu) := by
  refine ⟨?_, ?_, ?_, ?_, ?_, ?_, ?_, ?_, ?_, ?_, ?_, ?_, ?_, ?_, ?_, ?_, ?_, ?_,
    ?_, ?_, ?_, ?_, ?_, ?_, ?_, ?_, ?_, ?_, ?_, ?_, ?_, ?_, ?_⟩
  · simp [checkEssentialStatus]
  · intro h; simp [checkEssentialStatus, captureInt, h]
  · intro s h hp; simp [checkEssentialStatus, captureInt, h, hp]
  · intro c2 h; simp only [checkEssentialStatus, if_true]; simp only [captureInt]; rw [h]
  · intro h; simp [checkEssentialStatus, captureInt, h]
  · intro s h hp; simp [checkEssentialStatus, captureInt, h, hp]
  · intro c2 h; simp only [checkEssentialStatus, if_true]; simp only [captureInt]; rw [h]
  · intro h; simp [checkEssentialStatus, captureInt, h]
  · intro s h hp; simp [checkEssentialStatus, captureInt, h, hp]
  · intro c2 h; simp only [checkEssentialStatus, if_true]; simp only [captureInt]; rw [h]
  · intro h; simp [checkEssentialStatus, captureString, h]
  · intro c2 h; simp only [checkEssentialStatus, if_true]; simp only [captureString]; rw [h]
  · intro h; simp [checkEssentialStatus, captureFloat, h]
  · intro s h hp; simp [checkEssentialStatus, captureFloat, h, hp]
  · intro c2 h; simp only [checkEssentialStatus, if_true]; simp only [captureFloat]; rw [h]
  · intro h; simp [checkEssentialStatus, captureBool, h]
  · intro s h; simp [checkEssentialStatus, captureBool, h]
  · intro c2 h; simp only [checkEssentialStatus, if_true]; simp only [captureBool]; rw [h]
  · intro h; simp [checkEssentialStatus, captureBool, h]
  · intro s h; simp [checkEssentialStatus, captureBool, h]
  · intro c2 h; simp only [checkEssentialStatus, if_true]; simp only [captureBool]; rw [h]
  · intro h; simp [checkEssentialStatus, captureBool, h]
  · intro s h; simp [checkEssentialStatus, captureBool, h]
  · intro c2 h; simp only [checkEssentialStatus, if_true]; simp only [captureBool]; rw [h]
  · intro h; simp [checkEssentialStatus, captureBool, h]
  · intro s h; simp [checkEssentialStatus, captureBool, h]
  · intro c2 h; simp only [checkEssentialStatus, if_true]; simp only [captureBool]; rw [h]
  · intro h; simp [checkEssentialStatus, captureInt, h]
  · intro s h hp; simp [checkEssentialStatus, captureInt, h, hp]
  · intro c2 h; simp only [checkEssentialStatus, if_true]; simp only [captureInt]; rw [h]
  · intro h; simp [checkEssentialStatus, captureBool, h]
  · intro s h; simp [checkEssentialStatus, captureBool, h]
  · intro c2 h; simp only [checkEssentialStatus, if_true]; simp only [captureBool]; rw [h]

/-- Witness for C6: the missing-file snapshot, every absent-key default
on an empty file, every unparsable-value default, the boolean-literal
rule, and per-field independence across concretely different files. -/
theorem check_essential_status_defaults_witness :
    checkEssentialStatus false "" false = defaultEssentialStatus
    ∧ (checkEssentialStatus true "" false).max_fps = 165
    ∧ (checkEssentialStatus true "" false).fov = 80
    ∧ (checkEssentialStatus true "" false).display_mode = 1
    ∧ (checkEssentialStatus true "" false).resolution = "2560x1440"
    ∧ (checkEssentialStatus true "" false).refresh_rate = 165
    ∧ (checkEssentialStatus true "" false).vsync = true
    ∧ (checkEssentialStatus true "" false).draw_fps = false
    ∧ (checkEssentialStatus true "" false).all_settings = false
    ∧ (checkEssentialStatus true "" false).smooth = false
    ∧ (checkEssentialStatus true "" false).latency = 1
    ∧ (checkEssentialStatus true "" false).reduce_cpu = false
    ∧ (checkEssentialStatus true "MaxFPS = \"x\"\nFOV = \"x\"\nFullScreenMode = \"x\"\nRefreshRate = \"x\"\nMaxFrameLatency = \"x\"" false).max_fps = 165
    ∧ (checkEssentialStatus true "MaxFPS = \"x\"\nFOV = \"x\"\nFullScreenMode = \"x\"\nRefreshRate = \"x\"\nMaxFrameLatency = \"x\"" false).fov = 80
    ∧ (checkEssentialStatus true "MaxFPS = \"x\"\nFOV = \"x\"\nFullScreenMode = \"x\"\nRefreshRate = \"x\"\nMaxFrameLatency = \"x\"" false).display_mode = 1
    ∧ (checkEssentialStatus true "MaxFPS = \"x\"\nFOV = \"x\"\nFullScreenMode = \"x\"\nRefreshRate = \"x\"\nMaxFrameLatency = \"x\"" false).refresh_rate = 165
    ∧ (checkEssentialStatus true "MaxFPS = \"x\"\nFOV = \"x\"\nFullScreenMode = \"x\"\nRefreshRate = \"x\"\nMaxFrameLatency = \"x\"" false).latency = 1
    ∧ (checkEssentialStatus true "Vsync = \"0\"\nDrawFPS = \"2\"\nRestrictGraphicsOptions = \"1\"\nSmoothFramerate = \"0\"\nSerializeRender = \"1\"" false).vsync = false
    ∧ (checkEssentialStatus true "Vsync = \"0\"\nDrawFPS = \"2\"\nRestrictGraphicsOptions = \"1\"\nSmoothFramerate = \"0\"\nSerializeRender = \"1\"" false).draw_fps = false
    ∧ (checkEssentialStatus true "Vsync = \"0\"\nDrawFPS = \"2\"\nRestrictGraphicsOptions = \"1\"\nSmoothFramerate = \"0\"\nSerializeRender = \"1\"" false).all_settings = true
    ∧ (checkEssentialStatus true "Vsync = \"0\"\nDrawFPS = \"2\"\nRestrictGraphicsOptions = \"1\"\nSmoothFramerate = \"0\"\nSerializeRender = \"1\"" false).smooth = false
    ∧ (checkEssentialStatus true "Vsync = \"0\"\nDrawFPS = \"2\"\nRestrictGraphicsOptions = \"1\"\nSmoothFramerate = \"0\"\nSerializeRender = \"1\"" false).reduce_cpu = true
    ∧ (checkEssentialStatus true "" false).max_fps =
        (checkEssentialStatus true "FOV = \"90\"" false).max_fps
    ∧ (checkEssentialStatus true "" false).fov =
        (checkEssentialStatus true "MaxFPS = \"240\"" false).fov
    ∧ (checkEssentialStatus true "" false).display_mode =
        (checkEssentialStatus true "FOV = \"90\"" false).display_mode
    ∧ (checkEssentialStatus true "" false).resolution =
        (checkEssentialStatus true "FOV = \"90\"" false).resolution
    ∧ (checkEssentialStatus true "" false).refresh_rate =
        (checkEssentialStatus true "FOV = \"90\"" false).refresh_rate
    ∧ (checkEssentialStatus true "" false).vsync =
        (checkEssentialStatus true "FOV = \"90\"" false).vsync
    ∧ (checkEssentialStatus true "" false).draw_fps =
        (checkEssentialStatus true "FOV = \"90\"" false).draw_fps
    ∧ (checkEssentialStatus true "" false).all_settings =
        (checkEssentialStatus true "FOV = \"90\"" false).all_settings
    ∧ (checkEssentialStatus true "" false).smooth =
        (checkEssentialStatus true "FOV = \"90\"" false).smooth
    ∧ (checkEssentialStatus true "" false).latency =
        (checkEssentialStatus true "FOV = \"90\"" false).latency
    ∧ (checkEssentialStatus true "" false).reduce_cpu =
        (checkEssentialStatus true "FOV = \"90\"" false).reduce_cpu := by
  obtain ⟨a1, a2, -, a4, a5, -, a7, a8, -, a10, a11, a12, a13, -, a15, a16, -, a18,
    a19, -, a21, a22, -, a24, a25, -, a27, a28, -, a30, a31, -, a33⟩ :=
    check_essential_status_defaults "" false
  obtain ⟨-, -, u3, -, -, u6, -, -, u9, -, -, -, -, u14, -, -, -, -, -, -, -, -, -,
    -, -, -, -, -, u29, -, -, -, -⟩ :=
    check_essential_status_defaults
      "MaxFPS = \"x\"\nFOV = \"x\"\nFullScreenMode = \"x\"\nRefreshRate = \"x\"\nMaxFrameLatency = \"x\"" false
  obtain ⟨-, -, -, -, -, -, -, -, -, -, -, -, -, -, -, -, k17, -, -, k20, -, -, k23,
    -, -, k26, -, -, -, -, -, k32, -⟩ :=
    check_essential_status_defaults
      "Vsync = \"0\"\nDrawFPS = \"2\"\nRestrictGraphicsOptions = \"1\"\nSmoothFramerate = \"0\"\nSerializeRender = \"1\"" false
  exact ⟨a1, a2 rfl, a5 rfl, a8 rfl, a11 rfl, a13 rfl, a16 rfl, a19 rfl, a22 rfl,
    a25 rfl, a28 rfl, a31 rfl,
    u3 "x" rfl rfl, u6 "x" rfl rfl, u9 "x" rfl rfl, u14 "x" rfl rfl, u29 "x" rfl rfl,
    k17 "0" rfl, k20 "2" rfl, k23 "1" rfl, k26 "0" rfl, k32 "1" rfl,
    a4 "FOV = \"90\"" rfl, a7 "MaxFPS = \"240\"" rfl, a10 "FOV = \"90\"" rfl,
    a12 "FOV = \"90\"" rfl, a15 "FOV = \"90\"" rfl, a18 "FOV = \"90\"" rfl,
    a21 "FOV = \"90\"" rfl, a24 "FOV = \"90\"" rfl, a27 "FOV = \"90\"" rfl,
    a30 "FOV = \"90\"" rfl, a33 "FOV = \"90\"" rfl⟩

/-! ## DXVK asset selection: claim theorems C9, C10 -/

/-- Anything `findPreferred` returns is one of the candidates. -/
theorem findPreferred_mem (sfxs : List String) (cands : List ReleaseAssetLink)
    (l : ReleaseAssetLink) (h : findPreferred sfxs cands = some l) : l ∈ cands := by
  induction sfxs with
  | nil => exact absurd h (by simp [findPreferred])
  | cons s rest ih =>
    simp only [findPreferred] at h
    cases hf : cands.find? (fun x => urlEndsWith x s) with
    | some l2 =>
      rw [hf] at h
      cases h
      exact List.mem_of_find?_eq_some hf
    | none =>
      rw [hf] at h
      exact ih h

/-- A successful `preferred_asset_url` returns the URL of one of the
candidates. -/
theorem preferredAssetUrl_ok_mem (r : Release) (u : String)
    (h : preferredAssetUrl r = Except.ok u) :
    ∃ l ∈ candidatesOf r, u = l.url := by
  cases hc : candidatesOf r with
  | nil => simp [preferredAssetUrl, hc] at h
  | cons first rest =>
    simp only [preferredAssetUrl, hc] at h
    cases hf : findPreferred preferredSuffixes (first :: rest) with
    | some l =>
      rw [hf] at h
      injection h with h2
      exact ⟨l, findPreferred_mem _ _ _ hf, h2.symm⟩
    | none =>
      rw [hf] at h
      injection h with h2
      exact ⟨first, List.mem_cons_self _ _, h2.symm⟩

/-- Nonempty `links` are the whole candidate list. -/
theorem candidatesOf_links (r : Release) (a : ReleaseAssets)
    (ls : List ReleaseAssetLink) (ha : r.assets = some a) (hl : a.links = some ls)
    (hne : ls ≠ []) : candidatesOf r = ls := by
  have hemp : ls.isEmpty = false := by
    cases ls with
    | nil => exact absurd rfl hne
    | cons x xs => rfl
  simp [candidatesOf, ha, hl, hemp]

/-- C9: over a nonempty candidate list, `preferred_asset_url` returns the
URL of the first candidate whose lowercased URL ends in `.zip`, else the
first for `.tar.xz`, then `.tar.gz`, `.tar.bz2`, `.tar.zst`, `.tzst`, in
that order, else the first candidate's URL; and it returns an error
exactly when there are no candidates. -/
theorem preferred_asset_url_preference_order (r : Release) :
    (candidatesOf r = [] →
      preferredAssetUrl r =
        Except.error "No downloadable asset found in DXVK release metadata")
    ∧ (∀ first rest, candidatesOf r = first :: rest →
      preferredAssetUrl r = Except.ok (specPreferredChoice (first :: rest) first))
    ∧ (∀ e, preferredAssetUrl r = Except.error e → candidatesOf r = []) := by
  refine ⟨?_, ?_, ?_⟩
  · intro h
    simp [preferredAssetUrl, h]
  · intro first rest h
    simp only [preferredAssetUrl, h, findPreferred, preferredSuffixes]
    cases h1 : (first :: rest).find? (fun l => urlEndsWith l ".zip") with
    | some l => simp [specPreferredChoice, h1]
    | none =>
      cases h2 : (first :: rest).find? (fun l => urlEndsWith l ".tar.xz") with
      | some l => simp [specPreferredChoice, h1, h2]
      | none =>
        cases h3 : (first :: rest).find? (fun l => urlEndsWith l ".tar.gz") with
        | some l => simp [specPreferredChoice, h1, h2, h3]
        | none =>
          cases h4 : (first :: rest).find? (fun l => urlEndsWith l ".tar.bz2") with
          | some l => simp [specPreferredChoice, h1, h2, h3, h4]
          | none =>
            cases h5 : (first :: rest).find? (fun l => urlEndsWith l ".tar.zst") with
            | some l => simp [specPreferredChoice, h1, h2, h3, h4, h5]
            | none =>
              cases h6 : (first :: rest).find? (fun l => urlEndsWith l ".tzst") with
              | some l => simp [specPreferredChoice, h1, h2, h3, h4, h5, h6]
              | none => simp [specPreferredChoice, h1, h2, h3, h4, h5, h6]
  · intro e he
    cases hc : candidatesOf r with
    | nil => rfl
    | cons first rest =>
      exfalso
      simp only [preferredAssetUrl, hc] at he
      cases hf : findPreferred preferredSuffixes (first :: rest) with
      | some l => rw [hf] at he; exact Except.noConfusion he
      | none => rw [hf] at he; exact Except.noConfusion he

/-- Witness for C9: a release offering a `.tar.gz` and an uppercase
`.ZIP` picks the zip; a release with no candidates errors. -/
theorem preferred_asset_url_preference_order_witness :
    preferredAssetUrl
        ⟨some ⟨some [⟨"http://x/a.tar.gz", none⟩, ⟨"http://x/b.ZIP", none⟩], none⟩,
          none, none⟩ =
      Except.ok (specPreferredChoice
        [⟨"http://x/a.tar.gz", none⟩, ⟨"http://x/b.ZIP", none⟩]
        ⟨"http://x/a.tar.gz", none⟩)
    ∧ preferredAssetUrl ⟨some ⟨none, none⟩, none, none⟩ =
      Except.error "No downloadable asset found in DXVK release metadata" :=
  ⟨(preferred_asset_url_preference_order
      ⟨some ⟨some [⟨"http://x/a.tar.gz", none⟩, ⟨"http://x/b.ZIP", none⟩], none⟩,
        none, none⟩).2.1
      ⟨"http://x/a.tar.gz", none⟩ [⟨"http://x/b.ZIP", none⟩] rfl,
   (preferred_asset_url_preference_order ⟨some ⟨none, none⟩, none, none⟩).1 rfl⟩

/-- C10: when the release's `links` list is present and nonempty it is
the whole candidate list (so every successful selection comes from the
links, however preferred a source's suffix might be); the `sources` are
consulted only when `links` is absent or empty. -/
theorem preferred_asset_url_links_priority (r : Release) :
    (∀ a ls, r.assets = some a → a.links = some ls → ls ≠ [] →
      candidatesOf r = ls)
    ∧ (∀ a, r.assets = some a →
        (a.links = none ∨ a.links = some ([] : List ReleaseAssetLink)) →
        candidatesOf r = a.sources.getD [])
    ∧ (∀ a ls u, r.assets = some a → a.links = some ls → ls ≠ [] →
        preferredAssetUrl r = Except.ok u → ∃ l ∈ ls, u = l.url) := by
  refine ⟨?_, ?_, ?_⟩
  · intro a ls ha hl hne
    exact candidatesOf_links r a ls ha hl hne
  · intro a ha hl
    rcases hl with hl | hl
    · simp [candidatesOf, ha, hl]
    · simp [candidatesOf, ha, hl]
  · intro a ls u ha hl hne hok
    obtain ⟨l, hlm, hu⟩ := preferredAssetUrl_ok_mem r u hok
    rw [candidatesOf_links r a ls ha hl hne] at hlm
    exact ⟨l, hlm, hu⟩

/-- Witness for C10: with a non-preferred `.tar.gz` link and a `.zip`
source, the candidates are the links, the selected URL is the link's,
and an empty links list falls back to the sources. -/
theorem preferred_asset_url_links_priority_witness :
    candidatesOf
        ⟨some ⟨some [⟨"http://x/s.tar.gz", none⟩], some [⟨"http://x/better.zip", none⟩]⟩,
          none, none⟩ =
      [⟨"http://x/s.tar.gz", none⟩]
    ∧ (∃ l ∈ [(⟨"http://x/s.tar.gz", none⟩ : ReleaseAssetLink)],
        "http://x/s.tar.gz" = l.url)
    ∧ candidatesOf ⟨some ⟨some [], some [⟨"http://x/src.zip", none⟩]⟩, none, none⟩ =
        (some [(⟨"http://x/src.zip", none⟩ : ReleaseAssetLink)]).getD [] := by
  refine ⟨?_, ?_, ?_⟩
  · exact (preferred_asset_url_links_priority
      ⟨some ⟨some [⟨"http://x/s.tar.gz", none⟩, ], some [⟨"http://x/better.zip", none⟩]⟩,
        none, none⟩).1 _ _ rfl rfl (by simp)
  · exact (preferred_asset_url_links_priority
      ⟨some ⟨some [⟨"http://x/s.tar.gz", none⟩], some [⟨"http://x/better.zip", none⟩]⟩,
        none, none⟩).2.2 _ _ "http://x/s.tar.gz" rfl rfl (by simp) rfl
  · exact (preferred_asset_url_links_priority
      ⟨some ⟨some [], some [⟨"http://x/src.zip", none⟩]⟩, none, none⟩).2.1 _ rfl
      (Or.inr rfl)
